import Mathlib

/-!
Verification of the provider-resolution and client-construction layer
(`from_provider` in `instructor/auto_client.py`).

The Python function is a pure dispatcher once the ambient state is made
explicit: it reads the set of importable optional SDK packages and the
process environment, parses a `"provider/model"` identifier, resolves
credentials and a transport mode, and hands a fully-determined argument
bundle to a per-provider adapter factory (or raises a typed error).

The shallow embedding below makes that state explicit: a `Ctx` carries the
environment (`String → Option String`, mirroring `os.environ.get`) and the
installed-package predicate (mirroring whether `import <pkg>` succeeds).
The result of a call is a `CallResult`: either a `FactoryCall` record
(which adapter factory was invoked, with which native-client constructor
arguments and which keyword arguments) or a raised error, together with
the emitted deprecation warnings, the attempted optional imports and the
environment variables read (so absence of side effects is provable).
-/

namespace Instructor

/-- The structured-output transport modes referenced by `auto_client.py`
(`instructor.Mode.TOOLS`, `.JSON`, `.ANTHROPIC_TOOLS`; `MD_JSON` is another
member of the enum, included so that a caller-supplied override ranges over
more than the defaults). -/
inductive Mode where
  | TOOLS
  | JSON
  | ANTHROPIC_TOOLS
  | MD_JSON
  deriving DecidableEq

/-- Python values that flow through the keyword-argument dictionaries. -/
inductive PyValue where
  | vstr (s : String)
  | vint (n : Int)
  | vbool (b : Bool)
  | vnone
  | vmode (m : Mode)
  | vcache (id : Nat)
  deriving DecidableEq

/-- Python truthiness (`if not api_key: ...`): `None`, the empty string,
`0` and `False` are falsy; everything else here is truthy (enum members of
`Mode` are truthy). -/
def PyValue.truthy : PyValue → Bool
  | .vnone => false
  | .vstr s => !s.isEmpty
  | .vint n => n != 0
  | .vbool b => b
  | .vmode _ => true
  | .vcache _ => true

/-- A Python keyword-argument dictionary, as an association list with the
keys in insertion order (Python dicts preserve insertion order). -/
abbrev Kwargs := List (String × PyValue)

/-- `d.get(k)` / `k in d`: first binding of a key. -/
def kwGet (kw : Kwargs) (k : String) : Option PyValue :=
  match kw with
  | [] => none
  | (k2, v) :: t => if k2 = k then some v else kwGet t k

/-- Remove every binding of a key (a dict holds at most one). -/
def kwRemove (kw : Kwargs) (k : String) : Kwargs :=
  match kw with
  | [] => []
  | e :: t => if e.1 = k then kwRemove t k else e :: kwRemove t k

/-- The value returned by `d.pop(k, default)`. -/
def kwPopVal (kw : Kwargs) (k : String) (default : PyValue) : PyValue :=
  (kwGet kw k).getD default

/-- The dictionary left behind by `d.pop(k, default)` (unchanged when the
key is absent, since removal of an absent key is the identity). -/
def kwPopRest (kw : Kwargs) (k : String) : Kwargs :=
  kwRemove kw k

/-- `d[k] = v`: replace in place, or append when the key is new. -/
def kwSet (kw : Kwargs) (k : String) (v : PyValue) : Kwargs :=
  match kw with
  | [] => [(k, v)]
  | (k2, v2) :: t => if k2 = k then (k2, v) :: t else (k2, v2) :: kwSet t k v

/-- How many bindings of a key a keyword bundle holds (used to state that a
credential is not passed twice). -/
def keyCount (kw : Kwargs) (k : String) : Nat :=
  match kw with
  | [] => 0
  | e :: t => if e.1 = k then keyCount t k + 1 else keyCount t k

/-- `d.get(k)` is truthy: the key is present and its value is truthy. -/
def kwTruthy (kw : Kwargs) (k : String) : Bool :=
  match kwGet kw k with
  | some v => v.truthy
  | none => false

/-- The process environment, as `os.environ.get` sees it. -/
abbrev Env := String → Option String

/-- `os.environ.get k` as a Python value (`None` when unset). -/
def envVal (env : Env) (k : String) : PyValue :=
  match env k with
  | some s => .vstr s
  | none => .vnone

/-- Truthiness of `os.environ.get k` (unset or empty is falsy). -/
def envTruthy (env : Env) (k : String) : Bool :=
  match env k with
  | some s => !s.isEmpty
  | none => false

/-- Ambient state of a call: the environment and which optional provider
SDK packages are importable. -/
structure Ctx where
  env : Env
  installed : String → Bool

/-- A warning emitted via `warnings.warn(..., DeprecationWarning)`. -/
inductive Warning where
  | deprecation (provider : String)
  deriving DecidableEq

/-- The exception kinds raised by `from_provider`. -/
inductive PyError where
  | configurationError (msg : String)
  | importError (msg : String)
  | valueError (msg : String)
  deriving DecidableEq

/-- The argument bundle a provider branch hands to its adapter factory:
the factory name (`from_openai`, ...), the native-client constructor and
its keyword arguments, and the merged keyword arguments the factory
receives (named arguments first, then the forwarded `**kwargs`). -/
structure FactoryCall where
  factory : String
  clientCtor : String
  clientKwargs : Kwargs
  factoryKwargs : Kwargs
  deriving DecidableEq

/-- Success (an adapter-factory call) or a raised error. -/
inductive Outcome where
  | ok (call : FactoryCall)
  | err (e : PyError)
  deriving DecidableEq

/-- Full observable behaviour of one `from_provider` call: outcome plus
the emitted warnings, the attempted optional-dependency imports, and the
environment variables read, in order. -/
structure CallResult where
  outcome : Outcome
  warnings : List Warning
  depImports : List String
  envReads : List String
  deriving DecidableEq

/-! ### Error-message literals (transcribed from `auto_client.py`) -/

/-- Message of the malformed-identifier `ConfigurationError`. -/
def parseErrorMsg : String :=
  "Model string must be in format \"provider/model-name\" (e.g. \"openai/gpt-4\" or \"anthropic/claude-3-sonnet\")"

def openaiImportMsg : String :=
  "The openai package is required to use the OpenAI provider. Install it with `pip install openai`."

def azureImportMsg : String :=
  "The openai package is required to use the Azure OpenAI provider. Install it with `pip install openai`."

def azureKeyMsg : String :=
  "AZURE_OPENAI_API_KEY is not set. Set it with `export AZURE_OPENAI_API_KEY=<your-api-key>` or pass it as kwarg api_key=<your-api-key>"

def azureEndpointMsg : String :=
  "AZURE_OPENAI_ENDPOINT is not set. Set it with `export AZURE_OPENAI_ENDPOINT=<your-endpoint>` or pass it as kwarg azure_endpoint=<your-endpoint>"

def anthropicImportMsg : String :=
  "The anthropic package is required to use the Anthropic provider. Install it with `pip install anthropic`."

def googleImportMsg : String :=
  "The google-genai package is required to use the Google provider. Install it with `pip install google-genai`."

def mistralImportMsg : String :=
  "The mistralai package is required to use the Mistral provider. Install it with `pip install mistralai`."

def mistralKeyMsg : String :=
  "MISTRAL_API_KEY is not set. Set it with `export MISTRAL_API_KEY=<your-api-key>`."

def cohereImportMsg : String :=
  "The cohere package is required to use the Cohere provider. Install it with `pip install cohere`."

def perplexityImportMsg : String :=
  "The openai package is required to use the Perplexity provider. Install it with `pip install openai`."

def perplexityKeyMsg : String :=
  "PERPLEXITY_API_KEY is not set. Set it with `export PERPLEXITY_API_KEY=<your-api-key>` or pass it as a kwarg api_key=<your-api-key>"

def groqImportMsg : String :=
  "The groq package is required to use the Groq provider. Install it with `pip install groq`."

def writerImportMsg : String :=
  "The writerai package is required to use the Writer provider. Install it with `pip install writer-sdk`."

def bedrockImportMsg : String :=
  "The boto3 package is required to use the AWS Bedrock provider. Install it with `pip install boto3`."

def cerebrasImportMsg : String :=
  "The cerebras package is required to use the Cerebras provider. Install it with `pip install cerebras`."

def fireworksImportMsg : String :=
  "The fireworks-ai package is required to use the Fireworks provider. Install it with `pip install fireworks-ai`."

def vertexImportMsg : String :=
  "The google-genai package is required to use the VertexAI provider. Install it with `pip install google-genai`."

def vertexProjectMsg : String :=
  "Project ID is required for Vertex AI. Set it with `export GOOGLE_CLOUD_PROJECT=<your-project-id>` or pass it as kwarg project=<your-project-id>"

def genaiImportMsg : String :=
  "The google-genai package is required to use the Google GenAI provider. Install it with `pip install google-genai`."

def ollamaImportMsg : String :=
  "The openai package is required to use the Ollama provider. Install it with `pip install openai`."

def xaiImportMsg : String :=
  "The xai-sdk package is required to use the xAI provider. Install it with `pip install xai-sdk`."

/-! ### The provider registry and the unsupported-provider message -/

/-- The module-level `supported_providers` list, in source order. -/
def supportedProviders : List String :=
  ["openai", "azure_openai", "anthropic", "google", "generative-ai",
   "vertexai", "mistral", "cohere", "perplexity", "groq", "writer",
   "bedrock", "cerebras", "fireworks", "ollama", "xai"]

/-- A single-quote character, built from its code point. -/
def sq : String := String.singleton (Char.ofNat 39)

/-- Python `repr` of a simple string: the string between single quotes. -/
def pyStrRepr (s : String) : String := sq ++ s ++ sq

/-- Python `str`/`repr` of a list of simple strings, as interpolated by the
f-string in the unsupported-provider branch. -/
def pyListRepr (l : List String) : String :=
  "[" ++ String.intercalate ", " (l.map pyStrRepr) ++ "]"

/-- Message of the unsupported-provider `ConfigurationError`:
`f"Unsupported provider: {provider}. Supported providers are: {supported_providers}"`. -/
def unsupportedMsg (provider : String) : String :=
  "Unsupported provider: " ++ provider ++ ". Supported providers are: " ++
    pyListRepr supportedProviders

/-! ### Substring matching (Python `needle in haystack`) and identifier parsing -/

/-- The needle (first argument) begins the haystack (second argument). -/
def charsBeginWith : List Char → List Char → Bool
  | [], _ => true
  | _ :: _, [] => false
  | a :: as, b :: bs => a == b && charsBeginWith as bs

/-- The needle (second argument) occurs somewhere in the haystack (first
argument); the empty needle occurs everywhere, as in Python. -/
def charsContain : List Char → List Char → Bool
  | [], needle => needle.isEmpty
  | h :: t, needle => charsBeginWith needle (h :: t) || charsContain t needle

/-- Python `needle in haystack` on strings. -/
def pyIn (needle haystack : String) : Bool :=
  charsContain haystack.data needle.data

/-- Python `str.lower()` (character-wise lower-casing; the model names the
heuristic compares are ASCII). -/
def pyLower (s : String) : String :=
  String.mk (s.data.map Char.toLower)

/-- Whether a string contains the `/` separator. -/
def hasSlash (s : String) : Bool :=
  s.data.any (fun c => c == '/')

/-- Split a character list at its first `/`, dropping the separator; `none`
when there is no `/` (in which case the destructuring assignment after
`model.split("/", 1)` raises `ValueError`). -/
def splitChars : List Char → Option (List Char × List Char)
  | [] => none
  | c :: cs =>
    if c = '/' then some ([], cs)
    else
      match splitChars cs with
      | some (a, b) => some (c :: a, b)
      | none => none

/-- `provider, model_name = model.split("/", 1)` as a partial function. -/
def splitModel (s : String) : Option (String × String) :=
  match splitChars s.data with
  | some (a, b) => some (String.mk a, String.mk b)
  | none => none

/-! ### Per-provider assembly routines

Each branch of the `if provider == ...` chain in `from_provider` becomes one
definition. The evaluation order of the Python branch is preserved: the
optional import is attempted first (recorded in `depImports`); `kwargs.pop`
with an `os.environ.get` default reads the environment eagerly (recorded in
`envReads`) whether or not the explicit keyword is present; truthiness
checks follow the pops; on success the adapter factory receives its named
arguments followed by the remaining `**kwargs`. -/

def openaiBranch (ctx : Ctx) (modelName : String) (asyncClient : Bool)
    (mode : Option Mode) (kwargs : Kwargs) : CallResult :=
  if ctx.installed "openai" then
    { outcome := .ok
        { factory := "from_openai"
          clientCtor := if asyncClient then "openai.AsyncOpenAI" else "openai.OpenAI"
          clientKwargs := []
          factoryKwargs :=
            ("model", .vstr modelName) :: ("mode", .vmode (mode.getD .TOOLS)) :: kwargs }
      warnings := [], depImports := ["openai"], envReads := [] }
  else
    { outcome := .err (.configurationError openaiImportMsg)
      warnings := [], depImports := ["openai"], envReads := [] }

def azureBranch (ctx : Ctx) (modelName : String) (asyncClient : Bool)
    (mode : Option Mode) (kwargs : Kwargs) : CallResult :=
  if ctx.installed "openai" then
    let apiKey := kwPopVal kwargs "api_key" (envVal ctx.env "AZURE_OPENAI_API_KEY")
    let kw1 := kwPopRest kwargs "api_key"
    let azureEndpoint := kwPopVal kw1 "azure_endpoint" (envVal ctx.env "AZURE_OPENAI_ENDPOINT")
    let kw2 := kwPopRest kw1 "azure_endpoint"
    let apiVersion := kwPopVal kw2 "api_version" (.vstr "2024-02-01")
    let kw3 := kwPopRest kw2 "api_version"
    let reads := ["AZURE_OPENAI_API_KEY", "AZURE_OPENAI_ENDPOINT"]
    if !apiKey.truthy then
      { outcome := .err (.configurationError azureKeyMsg)
        warnings := [], depImports := ["openai"], envReads := reads }
    else if !azureEndpoint.truthy then
      { outcome := .err (.configurationError azureEndpointMsg)
        warnings := [], depImports := ["openai"], envReads := reads }
    else
      { outcome := .ok
          { factory := "from_openai"
            clientCtor := if asyncClient then "openai.AsyncAzureOpenAI" else "openai.AzureOpenAI"
            clientKwargs :=
              [("api_key", apiKey), ("api_version", apiVersion), ("azure_endpoint", azureEndpoint)]
            factoryKwargs :=
              ("model", .vstr modelName) :: ("mode", .vmode (mode.getD .TOOLS)) :: kw3 }
        warnings := [], depImports := ["openai"], envReads := reads }
  else
    { outcome := .err (.configurationError azureImportMsg)
      warnings := [], depImports := ["openai"], envReads := [] }

def anthropicBranch (ctx : Ctx) (modelName : String) (asyncClient : Bool)
    (mode : Option Mode) (kwargs : Kwargs) : CallResult :=
  if ctx.installed "anthropic" then
    let maxTokens := kwPopVal kwargs "max_tokens" (.vint 4096)
    let kw1 := kwPopRest kwargs "max_tokens"
    { outcome := .ok
        { factory := "from_anthropic"
          clientCtor := if asyncClient then "anthropic.AsyncAnthropic" else "anthropic.Anthropic"
          clientKwargs := []
          factoryKwargs :=
            ("model", .vstr modelName) :: ("mode", .vmode (mode.getD .ANTHROPIC_TOOLS)) ::
              ("max_tokens", maxTokens) :: kw1 }
      warnings := [], depImports := ["anthropic"], envReads := [] }
  else
    { outcome := .err (.importError anthropicImportMsg)
      warnings := [], depImports := ["anthropic"], envReads := [] }

/-- The keys the google branch moves from `kwargs` into the `genai.Client`
constructor, in source order. -/
def googleClientKeys : List String :=
  ["debug_config", "http_options", "credentials", "project", "location"]

/-- The `for key in [...]: if key in kwargs: client_kwargs[key] = kwargs.pop(key)`
loop: returns the extracted client kwargs and the remaining kwargs. -/
def extractClientKwargs : List String → Kwargs → Kwargs × Kwargs
  | [], kw => ([], kw)
  | k :: rest, kw =>
    match kwGet kw k with
    | some v =>
      let p := extractClientKwargs rest (kwRemove kw k)
      ((k, v) :: p.1, p.2)
    | none => extractClientKwargs rest kw

def googleBranch (ctx : Ctx) (modelName : String) (asyncClient : Bool)
    (_mode : Option Mode) (kwargs : Kwargs) : CallResult :=
  if ctx.installed "google.genai" then
    let vertexaiFlag := kwPopVal kwargs "vertexai" (.vbool false)
    let kw1 := kwPopRest kwargs "vertexai"
    let apiKey := kwPopVal kw1 "api_key" (envVal ctx.env "GOOGLE_API_KEY")
    let kw2 := kwPopRest kw1 "api_key"
    let p := extractClientKwargs googleClientKeys kw2
    { outcome := .ok
        { factory := "from_genai"
          clientCtor := "genai.Client"
          clientKwargs := ("vertexai", vertexaiFlag) :: ("api_key", apiKey) :: p.1
          factoryKwargs :=
            if asyncClient then
              ("use_async", .vbool true) :: ("model", .vstr modelName) :: p.2
            else
              ("model", .vstr modelName) :: p.2 }
      warnings := [], depImports := ["google.genai"], envReads := ["GOOGLE_API_KEY"] }
  else
    { outcome := .err (.importError googleImportMsg)
      warnings := [], depImports := ["google.genai"], envReads := [] }

def mistralBranch (ctx : Ctx) (modelName : String) (asyncClient : Bool)
    (_mode : Option Mode) (kwargs : Kwargs) : CallResult :=
  if ctx.installed "mistralai" then
    if envTruthy ctx.env "MISTRAL_API_KEY" then
      { outcome := .ok
          { factory := "from_mistral"
            clientCtor := "Mistral"
            clientKwargs := [("api_key", envVal ctx.env "MISTRAL_API_KEY")]
            factoryKwargs :=
              if asyncClient then
                ("model", .vstr modelName) :: ("use_async", .vbool true) :: kwargs
              else
                ("model", .vstr modelName) :: kwargs }
        warnings := [], depImports := ["mistralai"]
        envReads := ["MISTRAL_API_KEY", "MISTRAL_API_KEY"] }
    else
      { outcome := .err (.valueError mistralKeyMsg)
        warnings := [], depImports := ["mistralai"], envReads := ["MISTRAL_API_KEY"] }
  else
    { outcome := .err (.importError mistralImportMsg)
      warnings := [], depImports := ["mistralai"], envReads := [] }

def cohereBranch (ctx : Ctx) (_modelName : String) (asyncClient : Bool)
    (_mode : Option Mode) (kwargs : Kwargs) : CallResult :=
  if ctx.installed "cohere" then
    { outcome := .ok
        { factory := "from_cohere"
          clientCtor := if asyncClient then "cohere.AsyncClient" else "cohere.Client"
          clientKwargs := []
          factoryKwargs := kwargs }
      warnings := [], depImports := ["cohere"], envReads := [] }
  else
    { outcome := .err (.importError cohereImportMsg)
      warnings := [], depImports := ["cohere"], envReads := [] }

def perplexityBranch (ctx : Ctx) (modelName : String) (asyncClient : Bool)
    (_mode : Option Mode) (kwargs : Kwargs) : CallResult :=
  if ctx.installed "openai" then
    if envTruthy ctx.env "PERPLEXITY_API_KEY" then
      { outcome := .ok
          { factory := "from_perplexity"
            clientCtor := if asyncClient then "openai.AsyncOpenAI" else "openai.OpenAI"
            clientKwargs :=
              [("api_key", envVal ctx.env "PERPLEXITY_API_KEY"),
               ("base_url", .vstr "https://api.perplexity.ai")]
            factoryKwargs := ("model", .vstr modelName) :: kwargs }
        warnings := [], depImports := ["openai"]
        envReads := ["PERPLEXITY_API_KEY", "PERPLEXITY_API_KEY"] }
    else if kwTruthy kwargs "api_key" then
      { outcome := .ok
          { factory := "from_perplexity"
            clientCtor := if asyncClient then "openai.AsyncOpenAI" else "openai.OpenAI"
            clientKwargs :=
              [("api_key", (kwGet kwargs "api_key").getD .vnone),
               ("base_url", .vstr "https://api.perplexity.ai")]
            factoryKwargs := ("model", .vstr modelName) :: kwargs }
        warnings := [], depImports := ["openai"], envReads := ["PERPLEXITY_API_KEY"] }
    else
      { outcome := .err (.valueError perplexityKeyMsg)
        warnings := [], depImports := ["openai"], envReads := ["PERPLEXITY_API_KEY"] }
  else
    { outcome := .err (.importError perplexityImportMsg)
      warnings := [], depImports := ["openai"], envReads := [] }

def groqBranch (ctx : Ctx) (modelName : String) (asyncClient : Bool)
    (_mode : Option Mode) (kwargs : Kwargs) : CallResult :=
  if ctx.installed "groq" then
    { outcome := .ok
        { factory := "from_groq"
          clientCtor := if asyncClient then "groq.AsyncGroq" else "groq.Groq"
          clientKwargs := []
          factoryKwargs := ("model", .vstr modelName) :: kwargs }
      warnings := [], depImports := ["groq"], envReads := [] }
  else
    { outcome := .err (.importError groqImportMsg)
      warnings := [], depImports := ["groq"], envReads := [] }

def writerBranch (ctx : Ctx) (modelName : String) (asyncClient : Bool)
    (_mode : Option Mode) (kwargs : Kwargs) : CallResult :=
  if ctx.installed "writerai" then
    { outcome := .ok
        { factory := "from_writer"
          clientCtor := if asyncClient then "writerai.AsyncWriter" else "writerai.Writer"
          clientKwargs := []
          factoryKwargs := ("model", .vstr modelName) :: kwargs }
      warnings := [], depImports := ["writerai"], envReads := [] }
  else
    { outcome := .err (.importError writerImportMsg)
      warnings := [], depImports := ["writerai"], envReads := [] }

def bedrockBranch (ctx : Ctx) (_modelName : String) (_asyncClient : Bool)
    (_mode : Option Mode) (kwargs : Kwargs) : CallResult :=
  if ctx.installed "boto3" then
    { outcome := .ok
        { factory := "from_bedrock"
          clientCtor := "boto3.client"
          clientKwargs := [("service_name", .vstr "bedrock-runtime")]
          factoryKwargs := kwargs }
      warnings := [], depImports := ["boto3"], envReads := [] }
  else
    { outcome := .err (.importError bedrockImportMsg)
      warnings := [], depImports := ["boto3"], envReads := [] }

def cerebrasBranch (ctx : Ctx) (modelName : String) (asyncClient : Bool)
    (_mode : Option Mode) (kwargs : Kwargs) : CallResult :=
  if ctx.installed "cerebras" then
    { outcome := .ok
        { factory := "from_cerebras"
          clientCtor := if asyncClient then "cerebras.AsyncCerebras" else "cerebras.Cerebras"
          clientKwargs := []
          factoryKwargs := ("model", .vstr modelName) :: kwargs }
      warnings := [], depImports := ["cerebras"], envReads := [] }
  else
    { outcome := .err (.importError cerebrasImportMsg)
      warnings := [], depImports := ["cerebras"], envReads := [] }

def fireworksBranch (ctx : Ctx) (modelName : String) (asyncClient : Bool)
    (_mode : Option Mode) (kwargs : Kwargs) : CallResult :=
  if ctx.installed "fireworks" then
    { outcome := .ok
        { factory := "from_fireworks"
          clientCtor := if asyncClient then "fireworks.AsyncFireworks" else "fireworks.Fireworks"
          clientKwargs := []
          factoryKwargs := ("model", .vstr modelName) :: kwargs }
      warnings := [], depImports := ["fireworks"], envReads := [] }
  else
    { outcome := .err (.importError fireworksImportMsg)
      warnings := [], depImports := ["fireworks"], envReads := [] }

def vertexaiBranch (ctx : Ctx) (modelName : String) (asyncClient : Bool)
    (_mode : Option Mode) (kwargs : Kwargs) : CallResult :=
  let warns := [Warning.deprecation "vertexai"]
  if ctx.installed "google.genai" then
    let project := kwPopVal kwargs "project" (envVal ctx.env "GOOGLE_CLOUD_PROJECT")
    let kw1 := kwPopRest kwargs "project"
    let location :=
      kwPopVal kw1 "location" (.vstr ((ctx.env "GOOGLE_CLOUD_LOCATION").getD "us-central1"))
    let kw2 := kwPopRest kw1 "location"
    let reads := ["GOOGLE_CLOUD_PROJECT", "GOOGLE_CLOUD_LOCATION"]
    if !project.truthy then
      { outcome := .err (.valueError vertexProjectMsg)
        warnings := warns, depImports := ["google.genai"], envReads := reads }
    else
      let kw3 := kwSet kw2 "model" (.vstr modelName)
      { outcome := .ok
          { factory := "from_genai"
            clientCtor := "genai.Client"
            clientKwargs :=
              ("vertexai", .vbool true) :: ("project", project) :: ("location", location) :: kw2
            factoryKwargs := if asyncClient then ("use_async", .vbool true) :: kw3 else kw3 }
        warnings := warns, depImports := ["google.genai"], envReads := reads }
  else
    { outcome := .err (.importError vertexImportMsg)
      warnings := warns, depImports := ["google.genai"], envReads := [] }

def generativeAiBranch (ctx : Ctx) (modelName : String) (asyncClient : Bool)
    (_mode : Option Mode) (kwargs : Kwargs) : CallResult :=
  let warns := [Warning.deprecation "generative-ai"]
  if ctx.installed "google.genai" then
    let apiKey := kwPopVal kwargs "api_key" (envVal ctx.env "GOOGLE_API_KEY")
    let kw1 := kwPopRest kwargs "api_key"
    { outcome := .ok
        { factory := "from_genai"
          clientCtor := "genai.Client"
          clientKwargs := [("vertexai", .vbool false), ("api_key", apiKey)]
          factoryKwargs :=
            if asyncClient then
              ("use_async", .vbool true) :: ("model", .vstr modelName) :: kw1
            else
              ("model", .vstr modelName) :: kw1 }
      warnings := warns, depImports := ["google.genai"], envReads := ["GOOGLE_API_KEY"] }
  else
    { outcome := .err (.importError genaiImportMsg)
      warnings := warns, depImports := ["google.genai"], envReads := [] }

/-- The fixed set of tool-call-capable model family names of the ollama
branch (a Python set literal; `any` over it is order-independent). -/
def toolCapableModels : List String :=
  ["llama3.1", "llama3.2", "llama4", "mistral-nemo", "firefunction-v2",
   "command-r-plus", "qwen2.5", "qwen2.5-coder", "qwen3", "devstral"]

/-- The capability heuristic: tool-calling mode exactly when some capable
family name occurs in the lower-cased model name. -/
def ollamaDefaultMode (modelName : String) : Mode :=
  if toolCapableModels.any (fun cm => pyIn cm (pyLower modelName)) then .TOOLS else .JSON

def ollamaBranch (ctx : Ctx) (modelName : String) (asyncClient : Bool)
    (mode : Option Mode) (kwargs : Kwargs) : CallResult :=
  if ctx.installed "openai" then
    let baseUrl := kwPopVal kwargs "base_url" (.vstr "http://localhost:11434/v1")
    let kw1 := kwPopRest kwargs "base_url"
    let apiKey := kwPopVal kw1 "api_key" (.vstr "ollama")
    let kw2 := kwPopRest kw1 "api_key"
    { outcome := .ok
        { factory := "from_openai"
          clientCtor := if asyncClient then "openai.AsyncOpenAI" else "openai.OpenAI"
          clientKwargs := [("base_url", baseUrl), ("api_key", apiKey)]
          factoryKwargs :=
            ("model", .vstr modelName) ::
              ("mode", .vmode (mode.getD (ollamaDefaultMode modelName))) :: kw2 }
      warnings := [], depImports := ["openai"], envReads := [] }
  else
    { outcome := .err (.configurationError ollamaImportMsg)
      warnings := [], depImports := ["openai"], envReads := [] }

def xaiBranch (ctx : Ctx) (modelName : String) (asyncClient : Bool)
    (mode : Option Mode) (kwargs : Kwargs) : CallResult :=
  if ctx.installed "xai_sdk" then
    { outcome := .ok
        { factory := "from_xai"
          clientCtor := if asyncClient then "xai_sdk.aio.Client" else "xai_sdk.sync.Client"
          clientKwargs := []
          factoryKwargs :=
            ("mode", .vmode (mode.getD .JSON)) :: ("model", .vstr modelName) :: kwargs }
      warnings := [], depImports := ["xai_sdk"], envReads := [] }
  else
    { outcome := .err (.configurationError xaiImportMsg)
      warnings := [], depImports := ["xai_sdk"], envReads := [] }

/-- The `if provider == ... elif ...` chain of `from_provider`, in source
order, ending in the unsupported-provider `ConfigurationError`. -/
def dispatch (ctx : Ctx) (provider modelName : String) (asyncClient : Bool)
    (mode : Option Mode) (kwargs : Kwargs) : CallResult :=
  if provider = "openai" then openaiBranch ctx modelName asyncClient mode kwargs
  else if provider = "azure_openai" then azureBranch ctx modelName asyncClient mode kwargs
  else if provider = "anthropic" then anthropicBranch ctx modelName asyncClient mode kwargs
  else if provider = "google" then googleBranch ctx modelName asyncClient mode kwargs
  else if provider = "mistral" then mistralBranch ctx modelName asyncClient mode kwargs
  else if provider = "cohere" then cohereBranch ctx modelName asyncClient mode kwargs
  else if provider = "perplexity" then perplexityBranch ctx modelName asyncClient mode kwargs
  else if provider = "groq" then groqBranch ctx modelName asyncClient mode kwargs
  else if provider = "writer" then writerBranch ctx modelName asyncClient mode kwargs
  else if provider = "bedrock" then bedrockBranch ctx modelName asyncClient mode kwargs
  else if provider = "cerebras" then cerebrasBranch ctx modelName asyncClient mode kwargs
  else if provider = "fireworks" then fireworksBranch ctx modelName asyncClient mode kwargs
  else if provider = "vertexai" then vertexaiBranch ctx modelName asyncClient mode kwargs
  else if provider = "generative-ai" then generativeAiBranch ctx modelName asyncClient mode kwargs
  else if provider = "ollama" then ollamaBranch ctx modelName asyncClient mode kwargs
  else if provider = "xai" then xaiBranch ctx modelName asyncClient mode kwargs
  else
    { outcome := .err (.configurationError (unsupportedMsg provider))
      warnings := [], depImports := [], envReads := [] }

/-- The entry point `from_provider`: add the cache to the kwargs when
supplied, split the identifier on the first `/` (raising the malformed-
identifier `ConfigurationError` when there is none), then dispatch. -/
def from_provider (ctx : Ctx) (model : String) (asyncClient : Bool)
    (cache : Option PyValue) (mode : Option Mode) (kwargs : Kwargs) : CallResult :=
  let kwargs0 :=
    match cache with
    | some c => kwSet kwargs "cache" c
    | none => kwargs
  match splitModel model with
  | none =>
    { outcome := .err (.configurationError parseErrorMsg)
      warnings := [], depImports := [], envReads := [] }
  | some (provider, modelName) => dispatch ctx provider modelName asyncClient mode kwargs0

/-! ### Observation helpers for the theorems -/

/-- The adapter-factory call of a successful result. -/
def okCall (r : CallResult) : Option FactoryCall :=
  match r.outcome with
  | .ok c => some c
  | .err _ => none

/-- The `mode` keyword the adapter factory received, when the call
succeeded (`none` when it failed or when no mode was forwarded). -/
def forwardedMode (r : CallResult) : Option PyValue :=
  (okCall r).bind (fun c => kwGet c.factoryKwargs "mode")

/-- The resolved transport mode of a successful call, when one was
forwarded to the adapter factory. -/
def resolvedMode (r : CallResult) : Option Mode :=
  match forwardedMode r with
  | some (.vmode m) => some m
  | _ => none

/-- A keyword of the adapter-factory argument bundle of a successful call. -/
def forwardedOf (r : CallResult) (k : String) : Option PyValue :=
  (okCall r).bind (fun c => kwGet c.factoryKwargs k)

/-- How many bindings of a keyword the adapter factory received. -/
def forwardedCount (r : CallResult) (k : String) : Nat :=
  match okCall r with
  | some c => keyCount c.factoryKwargs k
  | none => 0

/-- A keyword of the native-client constructor of a successful call. -/
def clientKwargOf (r : CallResult) (k : String) : Option PyValue :=
  (okCall r).bind (fun c => kwGet c.clientKwargs k)

/-- The call raised the malformed-identifier `ConfigurationError`. -/
def raisesParseError (r : CallResult) : Bool :=
  match r.outcome with
  | .err (.configurationError msg) => decide (msg = parseErrorMsg)
  | _ => false

/-- A context with every optional SDK importable and an empty environment. -/
def bareCtx : Ctx := ⟨fun _ => none, fun _ => true⟩

/-- An environment holding exactly one variable. -/
def oneVarEnv (k v : String) : Env :=
  fun k2 => if k2 = k then some v else none

/-! ### Lemmas about the embedding's primitives -/

theorem strData_append (s t : String) : (s ++ t).data = s.data ++ t.data := rfl

theorem strLen_append (s t : String) : (s ++ t).length = s.length + t.length := by
  show (s ++ t).data.length = s.data.length + t.data.length
  rw [strData_append, List.length_append]

theorem strExt {s t : String} (h : s.data = t.data) : s = t := by
  cases s; cases t; cases h; rfl

theorem kwGet_remove_self (kw : Kwargs) (k : String) : kwGet (kwRemove kw k) k = none := by
  induction kw with
  | nil => rfl
  | cons e t ih =>
    by_cases h : e.1 = k
    · simpa [kwRemove, h] using ih
    · simpa [kwRemove, kwGet, h] using ih

theorem kwGet_remove_ne (kw : Kwargs) (k k2 : String) (h : k2 ≠ k) :
    kwGet (kwRemove kw k) k2 = kwGet kw k2 := by
  induction kw with
  | nil => rfl
  | cons e t ih =>
    by_cases he : e.1 = k
    · have hne : ¬ e.1 = k2 := by rw [he]; exact fun hh => h hh.symm
      rw [show kwRemove (e :: t) k = kwRemove t k by simp [kwRemove, he]]
      rw [show kwGet (e :: t) k2 = kwGet t k2 by simp [kwGet, hne]]
      exact ih
    · rw [show kwRemove (e :: t) k = e :: kwRemove t k by simp [kwRemove, he]]
      by_cases h2 : e.1 = k2
      · simp [kwGet, h2]
      · simpa [kwGet, h2] using ih

theorem keyCount_remove_self (kw : Kwargs) (k : String) : keyCount (kwRemove kw k) k = 0 := by
  induction kw with
  | nil => rfl
  | cons e t ih =>
    by_cases h : e.1 = k
    · simpa [kwRemove, h] using ih
    · simpa [kwRemove, keyCount, h] using ih

theorem charsBeginWith_refl (l : List Char) : charsBeginWith l l = true := by
  induction l with
  | nil => rfl
  | cons c t ih => simp [charsBeginWith, ih]

theorem charsContain_self (l : List Char) : charsContain l l = true := by
  cases l with
  | nil => rfl
  | cons c t => simp [charsContain, charsBeginWith_refl]

theorem charsContain_append_right (pre post : List Char) :
    charsContain (pre ++ post) post = true := by
  induction pre with
  | nil => simpa using charsContain_self post
  | cons c t ih => simp [charsContain, ih]

theorem splitChars_none_iff (l : List Char) :
    splitChars l = none ↔ l.any (fun c => c == '/') = false := by
  induction l with
  | nil => simp [splitChars]
  | cons c t ih =>
    by_cases h : c = '/'
    · simp [splitChars, h]
    · cases hs : splitChars t with
      | none => simp [splitChars, h, hs, ih.mp hs]
      | some p =>
        have : ¬ t.any (fun c => c == '/') = false := fun hf => by
          rw [ih.mpr hf] at hs; cases hs
        simp [splitChars, h, hs]
        simpa [h] using this

theorem splitChars_sound (l a b : List Char) (h : splitChars l = some (a, b)) :
    l = a ++ '/' :: b ∧ a.any (fun c => c == '/') = false := by
  induction l generalizing a b with
  | nil => cases h
  | cons c t ih =>
    by_cases hc : c = '/'
    · rw [splitChars, if_pos hc] at h
      cases h
      simpa using hc
    · rw [splitChars, if_neg hc] at h
      cases hs : splitChars t with
      | none => rw [hs] at h; cases h
      | some p =>
        rw [hs] at h
        cases h
        obtain ⟨h1, h2⟩ := ih p.1 p.2 (by rw [hs])
        constructor
        · simp [h1]
        · simp [hc, h2]

/-! ### The dispatcher never raises the malformed-identifier error -/

set_option maxRecDepth 4000 in
theorem unsupportedMsg_ne_parse (p : String) : unsupportedMsg p ≠ parseErrorMsg := by
  intro h
  have hl := congrArg String.length h
  rw [unsupportedMsg, strLen_append, strLen_append, strLen_append] at hl
  have h1 : 120 ≤ (pyListRepr supportedProviders).length := by decide
  have h2 : parseErrorMsg.length ≤ 110 := by decide
  omega

theorem openaiBranch_no_parse (ctx : Ctx) (m : String) (a : Bool) (md : Option Mode)
    (kw : Kwargs) : raisesParseError (openaiBranch ctx m a md kw) = false := by
  unfold openaiBranch; split <;> rfl

theorem azureBranch_no_parse (ctx : Ctx) (m : String) (a : Bool) (md : Option Mode)
    (kw : Kwargs) : raisesParseError (azureBranch ctx m a md kw) = false := by
  unfold azureBranch
  dsimp only
  split
  · split
    · rfl
    · split <;> rfl
  · rfl

theorem anthropicBranch_no_parse (ctx : Ctx) (m : String) (a : Bool) (md : Option Mode)
    (kw : Kwargs) : raisesParseError (anthropicBranch ctx m a md kw) = false := by
  unfold anthropicBranch; split <;> rfl

theorem googleBranch_no_parse (ctx : Ctx) (m : String) (a : Bool) (md : Option Mode)
    (kw : Kwargs) : raisesParseError (googleBranch ctx m a md kw) = false := by
  unfold googleBranch; split <;> rfl

theorem mistralBranch_no_parse (ctx : Ctx) (m : String) (a : Bool) (md : Option Mode)
    (kw : Kwargs) : raisesParseError (mistralBranch ctx m a md kw) = false := by
  unfold mistralBranch
  split
  · split <;> rfl
  · rfl

theorem cohereBranch_no_parse (ctx : Ctx) (m : String) (a : Bool) (md : Option Mode)
    (kw : Kwargs) : raisesParseError (cohereBranch ctx m a md kw) = false := by
  unfold cohereBranch; split <;> rfl

theorem perplexityBranch_no_parse (ctx : Ctx) (m : String) (a : Bool) (md : Option Mode)
    (kw : Kwargs) : raisesParseError (perplexityBranch ctx m a md kw) = false := by
  unfold perplexityBranch
  split
  · split
    · rfl
    · split <;> rfl
  · rfl

theorem groqBranch_no_parse (ctx : Ctx) (m : String) (a : Bool) (md : Option Mode)
    (kw : Kwargs) : raisesParseError (groqBranch ctx m a md kw) = false := by
  unfold groqBranch; split <;> rfl

theorem writerBranch_no_parse (ctx : Ctx) (m : String) (a : Bool) (md : Option Mode)
    (kw : Kwargs) : raisesParseError (writerBranch ctx m a md kw) = false := by
  unfold writerBranch; split <;> rfl

theorem bedrockBranch_no_parse (ctx : Ctx) (m : String) (a : Bool) (md : Option Mode)
    (kw : Kwargs) : raisesParseError (bedrockBranch ctx m a md kw) = false := by
  unfold bedrockBranch; split <;> rfl

theorem cerebrasBranch_no_parse (ctx : Ctx) (m : String) (a : Bool) (md : Option Mode)
    (kw : Kwargs) : raisesParseError (cerebrasBranch ctx m a md kw) = false := by
  unfold cerebrasBranch; split <;> rfl

theorem fireworksBranch_no_parse (ctx : Ctx) (m : String) (a : Bool) (md : Option Mode)
    (kw : Kwargs) : raisesParseError (fireworksBranch ctx m a md kw) = false := by
  unfold fireworksBranch; split <;> rfl

theorem vertexaiBranch_no_parse (ctx : Ctx) (m : String) (a : Bool) (md : Option Mode)
    (kw : Kwargs) : raisesParseError (vertexaiBranch ctx m a md kw) = false := by
  unfold vertexaiBranch
  dsimp only
  split
  · split <;> rfl
  · rfl

theorem generativeAiBranch_no_parse (ctx : Ctx) (m : String) (a : Bool) (md : Option Mode)
    (kw : Kwargs) : raisesParseError (generativeAiBranch ctx m a md kw) = false := by
  unfold generativeAiBranch; split <;> rfl

theorem ollamaBranch_no_parse (ctx : Ctx) (m : String) (a : Bool) (md : Option Mode)
    (kw : Kwargs) : raisesParseError (ollamaBranch ctx m a md kw) = false := by
  unfold ollamaBranch; split <;> rfl

theorem xaiBranch_no_parse (ctx : Ctx) (m : String) (a : Bool) (md : Option Mode)
    (kw : Kwargs) : raisesParseError (xaiBranch ctx m a md kw) = false := by
  unfold xaiBranch; split <;> rfl

theorem dispatch_no_parse (ctx : Ctx) (p m : String) (a : Bool) (md : Option Mode)
    (kw : Kwargs) : raisesParseError (dispatch ctx p m a md kw) = false := by
  unfold dispatch
  by_cases h1 : p = "openai"
  · rw [if_pos h1]; exact openaiBranch_no_parse _ _ _ _ _
  rw [if_neg h1]
  by_cases h2 : p = "azure_openai"
  · rw [if_pos h2]; exact azureBranch_no_parse _ _ _ _ _
  rw [if_neg h2]
  by_cases h3 : p = "anthropic"
  · rw [if_pos h3]; exact anthropicBranch_no_parse _ _ _ _ _
  rw [if_neg h3]
  by_cases h4 : p = "google"
  · rw [if_pos h4]; exact googleBranch_no_parse _ _ _ _ _
  rw [if_neg h4]
  by_cases h5 : p = "mistral"
  · rw [if_pos h5]; exact mistralBranch_no_parse _ _ _ _ _
  rw [if_neg h5]
  by_cases h6 : p = "cohere"
  · rw [if_pos h6]; exact cohereBranch_no_parse _ _ _ _ _
  rw [if_neg h6]
  by_cases h7 : p = "perplexity"
  · rw [if_pos h7]; exact perplexityBranch_no_parse _ _ _ _ _
  rw [if_neg h7]
  by_cases h8 : p = "groq"
  · rw [if_pos h8]; exact groqBranch_no_parse _ _ _ _ _
  rw [if_neg h8]
  by_cases h9 : p = "writer"
  · rw [if_pos h9]; exact writerBranch_no_parse _ _ _ _ _
  rw [if_neg h9]
  by_cases h10 : p = "bedrock"
  · rw [if_pos h10]; exact bedrockBranch_no_parse _ _ _ _ _
  rw [if_neg h10]
  by_cases h11 : p = "cerebras"
  · rw [if_pos h11]; exact cerebrasBranch_no_parse _ _ _ _ _
  rw [if_neg h11]
  by_cases h12 : p = "fireworks"
  · rw [if_pos h12]; exact fireworksBranch_no_parse _ _ _ _ _
  rw [if_neg h12]
  by_cases h13 : p = "vertexai"
  · rw [if_pos h13]; exact vertexaiBranch_no_parse _ _ _ _ _
  rw [if_neg h13]
  by_cases h14 : p = "generative-ai"
  · rw [if_pos h14]; exact generativeAiBranch_no_parse _ _ _ _ _
  rw [if_neg h14]
  by_cases h15 : p = "ollama"
  · rw [if_pos h15]; exact ollamaBranch_no_parse _ _ _ _ _
  rw [if_neg h15]
  by_cases h16 : p = "xai"
  · rw [if_pos h16]; exact xaiBranch_no_parse _ _ _ _ _
  rw [if_neg h16]
  exact decide_eq_false (unsupportedMsg_ne_parse p)

/-! ### Claim theorems (first group) -/

theorem kwGet_set_self (kw : Kwargs) (k : String) (v : PyValue) :
    kwGet (kwSet kw k v) k = some v := by
  induction kw with
  | nil => simp [kwSet, kwGet]
  | cons e t ih =>
    by_cases h : e.1 = k
    · simp [kwSet, h, kwGet]
    · simp [kwSet, h, kwGet, ih]

set_option maxRecDepth 2000 in
/-- C1: with an explicit mode override, the groq and google branches call their
adapter factories without any `mode` argument at all: the caller-supplied mode
is silently dropped rather than forwarded. -/
theorem c1_groq_drops_explicit_mode :
    (okCall (from_provider bareCtx "groq/llama-3.1-8b-instant" false none
        (some Mode.TOOLS) [])).isSome = true ∧
    forwardedMode (from_provider bareCtx "groq/llama-3.1-8b-instant" false none
        (some Mode.TOOLS) []) = none ∧
    (okCall (from_provider bareCtx "google/gemini-pro" false none
        (some Mode.TOOLS) [])).isSome = true ∧
    forwardedMode (from_provider bareCtx "google/gemini-pro" false none
        (some Mode.TOOLS) []) = none := by
  decide

set_option maxRecDepth 2000 in
/-- C2 counterexample: the identifier "openai/" contains the separator with an
empty model part, yet from_provider raises no ConfigurationError at all (it
dispatches to the openai branch successfully). -/
theorem c2_counterexample :
    hasSlash "openai/" = true ∧
    splitModel "openai/" = some ("openai", "") ∧
    (okCall (from_provider bareCtx "openai/" false none none [])).isSome = true := by
  decide

/-- C2 amended: from_provider raises the expected-shape ConfigurationError
exactly when the identifier lacks "/"; when a separator is present the
identifier is split at its first "/" (the provider part is slash-free and
reconstructs the identifier), and no shape error is raised even when either
part is empty. -/
theorem c2_amended (ctx : Ctx) (model : String) (a : Bool) (cache : Option PyValue)
    (md : Option Mode) (kw : Kwargs) :
    raisesParseError (from_provider ctx model a cache md kw) = !(hasSlash model) ∧
    (∀ p m, splitModel model = some (p, m) →
      model = p ++ "/" ++ m ∧ hasSlash p = false) := by
  constructor
  · by_cases hs : hasSlash model = true
    · rw [hs]
      have : splitChars model.data ≠ none := by
        intro hn
        have hf := (splitChars_none_iff model.data).mp hn
        unfold hasSlash at hs
        rw [hf] at hs
        cases hs
      cases hsp : splitChars model.data with
      | none => exact absurd hsp this
      | some pr =>
        unfold from_provider
        simp only [splitModel, hsp]
        exact dispatch_no_parse _ _ _ _ _ _
    · have hs2 : hasSlash model = false := by
        cases h2 : hasSlash model
        · rfl
        · exact absurd h2 hs
      rw [hs2]
      have hn : splitChars model.data = none := (splitChars_none_iff model.data).mpr hs2
      unfold from_provider
      simp only [splitModel, hn]
      rfl
  · intro p m hsp
    unfold splitModel at hsp
    cases hc : splitChars model.data with
    | none => rw [hc] at hsp; cases hsp
    | some pr =>
      rw [hc] at hsp
      cases hsp
      obtain ⟨h1, h2⟩ := splitChars_sound model.data pr.1 pr.2 (by rw [hc])
      constructor
      · apply strExt
        rw [strData_append, strData_append]
        simpa [List.append_assoc] using h1
      · exact h2

/-- C2 witness: the amended statement evaluated at "gpt-4" (no separator) and
at "openai/" (separator with empty model part). -/
theorem c2_amended_witness :
    raisesParseError (from_provider bareCtx "gpt-4" false none none [])
      = !(hasSlash "gpt-4") ∧
    ("openai/" : String) = "openai" ++ "/" ++ "" ∧
    hasSlash "openai" = false := by
  refine ⟨(c2_amended bareCtx "gpt-4" false none none []).1, ?_, ?_⟩
  · exact ((c2_amended bareCtx "openai/" false none none []).2 "openai" "" (by decide)).1
  · exact ((c2_amended bareCtx "openai/" false none none []).2 "openai" "" (by decide)).2

set_option maxRecDepth 2000 in
/-- C4: the mistral branch with no MISTRAL_API_KEY raises a plain ValueError
(not a ConfigurationError), and its message names the environment variable but
offers no keyword alternative. -/
theorem c4_mistral_missing_key_raises_valueerror :
    (from_provider bareCtx "mistral/mistral-large-latest" false none none []).outcome
      = .err (.valueError mistralKeyMsg) ∧
    pyIn "MISTRAL_API_KEY" mistralKeyMsg = true ∧
    pyIn "kwarg" mistralKeyMsg = false := by
  decide

set_option maxRecDepth 2000 in
/-- C5: a missing perplexity credential escapes as a plain ValueError, so a
third exception kind beyond ConfigurationError and the typed import error
reaches the caller. -/
theorem c5_perplexity_missing_key_raises_valueerror :
    (from_provider bareCtx "perplexity/sonar" false none none []).outcome
      = .err (.valueError perplexityKeyMsg) := by
  decide

/-- C9: an identifier without "/" makes from_provider raise the expected-shape
ConfigurationError with no dependency import attempted, no environment
variable read and no warning emitted. -/
theorem c9_no_separator_no_side_effects (ctx : Ctx) (model : String) (a : Bool)
    (cache : Option PyValue) (md : Option Mode) (kw : Kwargs)
    (h : hasSlash model = false) :
    from_provider ctx model a cache md kw =
      { outcome := .err (.configurationError parseErrorMsg),
        warnings := [], depImports := [], envReads := [] } := by
  have hn : splitChars model.data = none := (splitChars_none_iff model.data).mpr h
  unfold from_provider
  simp only [splitModel, hn]

/-- C9 witness: the identifier "gpt-4". -/
theorem c9_witness :
    from_provider bareCtx "gpt-4" false none none [] =
      { outcome := .err (.configurationError parseErrorMsg),
        warnings := [], depImports := [], envReads := [] } :=
  c9_no_separator_no_side_effects bareCtx "gpt-4" false none none [] rfl

set_option maxRecDepth 2000 in
/-- C3 counterexample: with both PERPLEXITY_API_KEY in the environment and an
explicit api_key keyword, the perplexity branch resolves the credential from
the environment (not the keyword) and leaves the keyword in the kwargs
forwarded to the adapter factory. -/
theorem c3_counterexample :
    clientKwargOf (from_provider ⟨oneVarEnv "PERPLEXITY_API_KEY" "env-secret", fun _ => true⟩
        "perplexity/sonar" false none none [("api_key", .vstr "kwarg-secret")]) "api_key"
      = some (.vstr "env-secret") ∧
    forwardedOf (from_provider ⟨oneVarEnv "PERPLEXITY_API_KEY" "env-secret", fun _ => true⟩
        "perplexity/sonar" false none none [("api_key", .vstr "kwarg-secret")]) "api_key"
      = some (.vstr "kwarg-secret") := by
  decide

/-- C3 amended: the azure branch prefers the explicit keyword and removes it
from the forwarded kwargs, but the perplexity branch gives the environment
variable precedence and does not remove an explicit keyword from the forwarded
kwargs, and the mistral branch never consults an explicit keyword at all. -/
theorem c3_amended (ctx : Ctx) (m : String) (a : Bool) (md : Option Mode)
    (kw : Kwargs) (v : PyValue) :
    (∀ c, (azureBranch ctx m a md kw).outcome = .ok c → kwGet kw "api_key" = some v →
      kwGet c.clientKwargs "api_key" = some v ∧ kwGet c.factoryKwargs "api_key" = none) ∧
    (∀ c, (perplexityBranch ctx m a md kw).outcome = .ok c →
      envTruthy ctx.env "PERPLEXITY_API_KEY" = true →
      kwGet c.clientKwargs "api_key" = some (envVal ctx.env "PERPLEXITY_API_KEY") ∧
      kwGet c.factoryKwargs "api_key" = kwGet kw "api_key") ∧
    (ctx.installed "mistralai" = true → envTruthy ctx.env "MISTRAL_API_KEY" = false →
      (mistralBranch ctx m a md kw).outcome = .err (.valueError mistralKeyMsg)) := by
  refine ⟨?_, ?_, ?_⟩
  · intro c hc hv
    unfold azureBranch at hc
    dsimp only at hc
    split at hc
    · split at hc
      · simp at hc
      · split at hc
        · simp at hc
        · simp only [Outcome.ok.injEq] at hc
          subst hc
          constructor
          · simp [kwGet, kwPopVal, hv]
          · simp only [kwGet]
            rw [if_neg (by decide), if_neg (by decide)]
            rw [kwPopRest, kwPopRest, kwPopRest]
            rw [kwGet_remove_ne _ _ _ (by decide), kwGet_remove_ne _ _ _ (by decide)]
            exact kwGet_remove_self kw "api_key"
    · simp at hc
  · intro c hc he
    unfold perplexityBranch at hc
    split at hc
    · simp only [Outcome.ok.injEq] at hc
      subst hc
      constructor
      · simp [kwGet]
      · simp [kwGet]
    · simp at hc
  · intro hi he
    unfold mistralBranch
    rw [if_pos hi, if_neg (by simp [he])]

/-- C3 witness: the amended statement evaluated on concrete contexts (azure
with explicit keyword and endpoint, perplexity with both sources set, mistral
with nothing set). -/
theorem c3_amended_witness :
    (kwGet ((okCall (azureBranch bareCtx "gpt-4" false none
        [("api_key", PyValue.vstr "k"), ("azure_endpoint", PyValue.vstr "e")])).getD
        ⟨"", "", [], []⟩).clientKwargs "api_key" = some (PyValue.vstr "k") ∧
      kwGet ((okCall (azureBranch bareCtx "gpt-4" false none
        [("api_key", PyValue.vstr "k"), ("azure_endpoint", PyValue.vstr "e")])).getD
        ⟨"", "", [], []⟩).factoryKwargs "api_key" = none) ∧
    (kwGet ((okCall (perplexityBranch ⟨oneVarEnv "PERPLEXITY_API_KEY" "env-secret", fun _ => true⟩
        "sonar" false none [("api_key", PyValue.vstr "kwarg-secret")])).getD
        ⟨"", "", [], []⟩).clientKwargs "api_key"
      = some (envVal (oneVarEnv "PERPLEXITY_API_KEY" "env-secret") "PERPLEXITY_API_KEY") ∧
      kwGet ((okCall (perplexityBranch ⟨oneVarEnv "PERPLEXITY_API_KEY" "env-secret", fun _ => true⟩
        "sonar" false none [("api_key", PyValue.vstr "kwarg-secret")])).getD
        ⟨"", "", [], []⟩).factoryKwargs "api_key"
      = kwGet [("api_key", PyValue.vstr "kwarg-secret")] "api_key") ∧
    (mistralBranch bareCtx "mistral-large-latest" false none []).outcome
      = .err (.valueError mistralKeyMsg) := by
  refine ⟨?_, ?_, ?_⟩
  · exact (c3_amended bareCtx "gpt-4" false none
      [("api_key", PyValue.vstr "k"), ("azure_endpoint", PyValue.vstr "e")]
      (PyValue.vstr "k")).1 _ (by decide) (by decide)
  · exact (c3_amended ⟨oneVarEnv "PERPLEXITY_API_KEY" "env-secret", fun _ => true⟩
      "sonar" false none [("api_key", PyValue.vstr "kwarg-secret")] PyValue.vnone).2.1
      _ (by decide) (by decide)
  · exact (c3_amended bareCtx "mistral-large-latest" false none [] PyValue.vnone).2.2
      rfl rfl

/-- C6: with no caller override, the ollama branch resolves the tool-calling
mode exactly when some fixed tool-capable family name occurs in the
lower-cased model name, and the plain-JSON mode otherwise; in particular
"ollama/llama3.1" resolves to TOOLS and "ollama/some-unlisted-model" to JSON. -/
theorem c6_ollama_mode_heuristic (ctx : Ctx) (m : String) (a : Bool) (kw : Kwargs)
    (hinst : ctx.installed "openai" = true) :
    (resolvedMode (dispatch ctx "ollama" m a none kw) = some Mode.TOOLS ↔
      ∃ cm, cm ∈ toolCapableModels ∧ pyIn cm (pyLower m) = true) ∧
    (resolvedMode (dispatch ctx "ollama" m a none kw) = some Mode.JSON ↔
      ¬ ∃ cm, cm ∈ toolCapableModels ∧ pyIn cm (pyLower m) = true) ∧
    resolvedMode (from_provider bareCtx "ollama/llama3.1" false none none [])
      = some Mode.TOOLS ∧
    resolvedMode (from_provider bareCtx "ollama/some-unlisted-model" false none none [])
      = some Mode.JSON := by
  have hd : dispatch ctx "ollama" m a none kw = ollamaBranch ctx m a none kw := rfl
  have hr : resolvedMode (ollamaBranch ctx m a none kw) = some (ollamaDefaultMode m) := by
    unfold ollamaBranch
    rw [if_pos hinst]
    dsimp only
    simp [resolvedMode, forwardedMode, okCall, kwGet]
  have hany : (toolCapableModels.any fun cm => pyIn cm (pyLower m)) = true ↔
      ∃ cm, cm ∈ toolCapableModels ∧ pyIn cm (pyLower m) = true := by
    simp
  refine ⟨?_, ?_, by decide, by decide⟩
  · rw [hd, hr]
    unfold ollamaDefaultMode
    by_cases h : (toolCapableModels.any fun cm => pyIn cm (pyLower m)) = true
    · rw [if_pos h]
      exact ⟨fun _ => hany.mp h, fun _ => rfl⟩
    · rw [if_neg h]
      exact ⟨fun hh => absurd hh (by decide), fun hex => absurd (hany.mpr hex) h⟩
  · rw [hd, hr]
    unfold ollamaDefaultMode
    by_cases h : (toolCapableModels.any fun cm => pyIn cm (pyLower m)) = true
    · rw [if_pos h]
      exact ⟨fun hh => absurd hh (by decide), fun hne => absurd (hany.mp h) hne⟩
    · rw [if_neg h]
      exact ⟨fun _ hex => absurd (hany.mpr hex) h, fun _ => rfl⟩

/-- C6 witness: the heuristic at the model name "llama3.1". -/
theorem c6_witness :
    (resolvedMode (dispatch bareCtx "ollama" "llama3.1" false none []) = some Mode.TOOLS ↔
      ∃ cm, cm ∈ toolCapableModels ∧ pyIn cm (pyLower "llama3.1") = true) ∧
    (resolvedMode (dispatch bareCtx "ollama" "llama3.1" false none []) = some Mode.JSON ↔
      ¬ ∃ cm, cm ∈ toolCapableModels ∧ pyIn cm (pyLower "llama3.1") = true) ∧
    resolvedMode (from_provider bareCtx "ollama/llama3.1" false none none [])
      = some Mode.TOOLS ∧
    resolvedMode (from_provider bareCtx "ollama/some-unlisted-model" false none none [])
      = some Mode.JSON :=
  c6_ollama_mode_heuristic bareCtx "llama3.1" false [] rfl


set_option maxRecDepth 2000 in
/-- C7 counterexample: with the same environment (GOOGLE_CLOUD_PROJECT set),
"vertexai/gemini-pro" resolves project and location onto the native client,
while "google/gemini-pro" with vertexai=true resolves neither (it resolves an
api_key instead), so the resolved native-client configuration fields differ. -/
theorem c7_counterexample :
    (from_provider ⟨oneVarEnv "GOOGLE_CLOUD_PROJECT" "demo-project", fun _ => true⟩
        "vertexai/gemini-pro" false none none []).warnings
      = [.deprecation "vertexai"] ∧
    clientKwargOf (from_provider ⟨oneVarEnv "GOOGLE_CLOUD_PROJECT" "demo-project", fun _ => true⟩
        "vertexai/gemini-pro" false none none []) "project" = some (.vstr "demo-project") ∧
    clientKwargOf (from_provider ⟨oneVarEnv "GOOGLE_CLOUD_PROJECT" "demo-project", fun _ => true⟩
        "vertexai/gemini-pro" false none none []) "location" = some (.vstr "us-central1") ∧
    clientKwargOf (from_provider ⟨oneVarEnv "GOOGLE_CLOUD_PROJECT" "demo-project", fun _ => true⟩
        "google/gemini-pro" false none none [("vertexai", .vbool true)]) "project" = none ∧
    clientKwargOf (from_provider ⟨oneVarEnv "GOOGLE_CLOUD_PROJECT" "demo-project", fun _ => true⟩
        "google/gemini-pro" false none none [("vertexai", .vbool true)]) "location" = none := by
  decide

/-- C7 amended: the vertexai alias emits exactly one deprecation warning and,
like the google branch called with vertexai=true, delegates to the from_genai
adapter with vertexai=true on the native client; but the two branches resolve
different configuration fields in general (project/location versus api_key),
so the behaviours are not identical. -/
theorem c7_amended (ctx : Ctx) (m : String) (a : Bool) (md : Option Mode) (kw : Kwargs) :
    (dispatch ctx "vertexai" m a md kw).warnings = [Warning.deprecation "vertexai"] ∧
    (dispatch ctx "google" m a md (kwSet kw "vertexai" (.vbool true))).warnings = [] ∧
    (∀ c, (dispatch ctx "vertexai" m a md kw).outcome = .ok c →
      c.factory = "from_genai" ∧ kwGet c.clientKwargs "vertexai" = some (.vbool true)) ∧
    (∀ c, (dispatch ctx "google" m a md (kwSet kw "vertexai" (.vbool true))).outcome = .ok c →
      c.factory = "from_genai" ∧ kwGet c.clientKwargs "vertexai" = some (.vbool true)) := by
  have hd1 : dispatch ctx "vertexai" m a md kw = vertexaiBranch ctx m a md kw := rfl
  have hd2 : dispatch ctx "google" m a md (kwSet kw "vertexai" (.vbool true))
      = googleBranch ctx m a md (kwSet kw "vertexai" (.vbool true)) := rfl
  rw [hd1, hd2]
  refine ⟨?_, ?_, ?_, ?_⟩
  · unfold vertexaiBranch
    dsimp only
    split
    · split
      · rfl
      · rfl
    · rfl
  · unfold googleBranch
    split
    · rfl
    · rfl
  · intro c hc
    unfold vertexaiBranch at hc
    dsimp only at hc
    split at hc
    · split at hc
      · simp at hc
      · simp only [Outcome.ok.injEq] at hc
        subst hc
        exact ⟨rfl, by simp [kwGet]⟩
    · simp at hc
  · intro c hc
    unfold googleBranch at hc
    split at hc
    · simp only [Outcome.ok.injEq] at hc
      subst hc
      refine ⟨rfl, ?_⟩
      simp only [kwGet, if_true]
      unfold kwPopVal
      rw [kwGet_set_self]
      rfl
    · simp at hc

set_option maxRecDepth 2000 in
/-- C7 witness: the amended statement at a concrete environment holding
GOOGLE_CLOUD_PROJECT. -/
theorem c7_amended_witness :
    (dispatch ⟨oneVarEnv "GOOGLE_CLOUD_PROJECT" "demo-project", fun _ => true⟩
        "vertexai" "gemini-pro" false none []).warnings = [Warning.deprecation "vertexai"] ∧
    (dispatch ⟨oneVarEnv "GOOGLE_CLOUD_PROJECT" "demo-project", fun _ => true⟩
        "google" "gemini-pro" false none (kwSet [] "vertexai" (.vbool true))).warnings = [] ∧
    (((okCall (dispatch ⟨oneVarEnv "GOOGLE_CLOUD_PROJECT" "demo-project", fun _ => true⟩
        "vertexai" "gemini-pro" false none [])).getD ⟨"", "", [], []⟩).factory = "from_genai" ∧
      kwGet ((okCall (dispatch ⟨oneVarEnv "GOOGLE_CLOUD_PROJECT" "demo-project", fun _ => true⟩
        "vertexai" "gemini-pro" false none [])).getD ⟨"", "", [], []⟩).clientKwargs "vertexai"
        = some (.vbool true)) ∧
    (((okCall (dispatch ⟨oneVarEnv "GOOGLE_CLOUD_PROJECT" "demo-project", fun _ => true⟩
        "google" "gemini-pro" false none (kwSet [] "vertexai" (.vbool true)))).getD
        ⟨"", "", [], []⟩).factory = "from_genai" ∧
      kwGet ((okCall (dispatch ⟨oneVarEnv "GOOGLE_CLOUD_PROJECT" "demo-project", fun _ => true⟩
        "google" "gemini-pro" false none (kwSet [] "vertexai" (.vbool true)))).getD
        ⟨"", "", [], []⟩).clientKwargs "vertexai" = some (.vbool true)) := by
  refine ⟨(c7_amended ⟨oneVarEnv "GOOGLE_CLOUD_PROJECT" "demo-project", fun _ => true⟩
      "gemini-pro" false none []).1,
    (c7_amended ⟨oneVarEnv "GOOGLE_CLOUD_PROJECT" "demo-project", fun _ => true⟩
      "gemini-pro" false none []).2.1, ?_, ?_⟩
  · exact (c7_amended ⟨oneVarEnv "GOOGLE_CLOUD_PROJECT" "demo-project", fun _ => true⟩
      "gemini-pro" false none []).2.2.1 _ (by decide)
  · exact (c7_amended ⟨oneVarEnv "GOOGLE_CLOUD_PROJECT" "demo-project", fun _ => true⟩
      "gemini-pro" false none []).2.2.2 _ (by decide)

set_option maxRecDepth 4000 in
/-- C8: any identifier whose provider token is outside the registry makes
from_provider raise a ConfigurationError whose message ends with the literal
Python rendering of the full supported-provider list, which includes the two
deprecated aliases. -/
theorem c8_unsupported_provider_message (ctx : Ctx) (s p m : String) (a : Bool)
    (cache : Option PyValue) (md : Option Mode) (kw : Kwargs)
    (hsplit : splitModel s = some (p, m)) (hp : p ∉ supportedProviders) :
    (from_provider ctx s a cache md kw).outcome
      = .err (.configurationError (unsupportedMsg p)) ∧
    pyIn (pyListRepr supportedProviders) (unsupportedMsg p) = true ∧
    "vertexai" ∈ supportedProviders ∧ "generative-ai" ∈ supportedProviders := by
  simp only [supportedProviders, List.mem_cons, List.not_mem_nil, or_false, not_or] at hp
  obtain ⟨n1, n2, n3, n4, n5, n6, n7, n8, n9, n10, n11, n12, n13, n14, n15, n16⟩ := hp
  refine ⟨?_, ?_, by decide, by decide⟩
  · unfold from_provider
    simp only [hsplit]
    unfold dispatch
    rw [if_neg n1, if_neg n2, if_neg n3, if_neg n4, if_neg n7, if_neg n8, if_neg n9,
      if_neg n10, if_neg n11, if_neg n12, if_neg n13, if_neg n14, if_neg n6, if_neg n5,
      if_neg n15, if_neg n16]
  · unfold pyIn unsupportedMsg
    rw [strData_append]
    exact charsContain_append_right _ _

set_option maxRecDepth 4000 in
/-- C8 witness: the unregistered provider token "foobar". -/
theorem c8_witness :
    (from_provider bareCtx "foobar/x" false none none []).outcome
      = .err (.configurationError (unsupportedMsg "foobar")) ∧
    pyIn (pyListRepr supportedProviders) (unsupportedMsg "foobar") = true ∧
    "vertexai" ∈ supportedProviders ∧ "generative-ai" ∈ supportedProviders :=
  c8_unsupported_provider_message bareCtx "foobar/x" "foobar" "x" false none none []
    (by decide) (by decide)

/-- C10: the anthropic branch forwards max_tokens=4096 to the adapter factory
when the caller supplies none, and forwards the caller's value exactly once
(popped from the remaining kwargs) when one is supplied. -/
theorem c10_anthropic_max_tokens (ctx : Ctx) (m : String) (a : Bool) (md : Option Mode)
    (kw : Kwargs) (hinst : ctx.installed "anthropic" = true) :
    (kwGet kw "max_tokens" = none →
      forwardedOf (dispatch ctx "anthropic" m a md kw) "max_tokens"
        = some (.vint 4096)) ∧
    (∀ v, kwGet kw "max_tokens" = some v →
      forwardedOf (dispatch ctx "anthropic" m a md kw) "max_tokens" = some v ∧
      forwardedCount (dispatch ctx "anthropic" m a md kw) "max_tokens" = 1) := by
  have hd : dispatch ctx "anthropic" m a md kw = anthropicBranch ctx m a md kw := rfl
  rw [hd]
  unfold anthropicBranch
  rw [if_pos hinst]
  dsimp only
  constructor
  · intro h0
    simp [forwardedOf, okCall, kwGet, kwPopVal, h0]
  · intro v hv
    constructor
    · simp [forwardedOf, okCall, kwGet, kwPopVal, hv]
    · simp only [forwardedCount, okCall, keyCount, kwPopRest]
      rw [if_neg (by decide), if_neg (by decide), if_pos trivial]
      rw [keyCount_remove_self]

/-- C10 witness: the anthropic branch with no max_tokens keyword and with
max_tokens=1024. -/
theorem c10_witness :
    forwardedOf (dispatch bareCtx "anthropic" "claude-3-sonnet" false none []) "max_tokens"
      = some (.vint 4096) ∧
    forwardedOf (dispatch bareCtx "anthropic" "claude-3-sonnet" false none
        [("max_tokens", PyValue.vint 1024)]) "max_tokens" = some (PyValue.vint 1024) ∧
    forwardedCount (dispatch bareCtx "anthropic" "claude-3-sonnet" false none
        [("max_tokens", PyValue.vint 1024)]) "max_tokens" = 1 := by
  refine ⟨(c10_anthropic_max_tokens bareCtx "claude-3-sonnet" false none [] rfl).1 rfl,
    ?_, ?_⟩
  · exact ((c10_anthropic_max_tokens bareCtx "claude-3-sonnet" false none
      [("max_tokens", PyValue.vint 1024)] rfl).2 (PyValue.vint 1024) rfl).1
  · exact ((c10_anthropic_max_tokens bareCtx "claude-3-sonnet" false none
      [("max_tokens", PyValue.vint 1024)] rfl).2 (PyValue.vint 1024) rfl).2

end Instructor
